import Mathlib

/-!
Shallow embedding of `src/v2.rs` (glTF 2.0 document model, gltf-rs).

Machine integers are modelled as `Nat` with explicit `% 2 ^ 32` (u32) or
`% 2 ^ 64` (u64) where the Rust code casts; `f32` fields are modelled as
`Rat` (every float literal appearing in the source — 0.0 and 1.0 — is
exactly representable). JSON text is modelled as an already-lexed JSON
tree (`Json`); serde_json's text lexer is outside the repository. The
serde-derive field semantics (`deny_unknown_fields`, `rename`, `default`,
`Option` fields, missing-field errors) are modelled from the spec, §4.3
and §6: each struct's wire-field schema, renames and defaults are taken
from the attributes in `src/v2.rs` itself.
-/

namespace Gltf

/-- The phantom type parameters used for `Index<T>` in `src/v2.rs`,
made into value-level tags. Each tag names one Rust entity type;
`animationSampler` names the `AnimationSampler` type (never used as an
`Index` target by the code, but named by the spec's §3 table). -/
inductive CollTag where
  | accessor | animation | buffer | bufferView | camera | image
  | material | mesh | node | sampler | scene | skin | texture
  | animationSampler
deriving DecidableEq, Repr

/-- `struct Index<T>(u32, PhantomData<T>)` (src/v2.rs line 17). The `u32`
payload is a `Nat`; every constructor used by the code reduces it mod
`2 ^ 32` at the `as u32` cast site. -/
structure Index (t : CollTag) where
  value : Nat
deriving DecidableEq, Repr

/-- `Index::new(value: u32)` (src/v2.rs lines 20-22): wraps an already
32-bit value. -/
def Index.new (t : CollTag) (value : Nat) : Index t := ⟨value⟩

/-- The tag an index is typed against (the phantom parameter, read back). -/
def Index.tagOf {t : CollTag} (_ : Index t) : CollTag := t

/-- `impl Serialize for Index<T>` (src/v2.rs lines 991-997):
`serializer.serialize_u64(self.value() as u64)` — emits the stored `u32`
widened to `u64`, i.e. the stored number unchanged. -/
def Index.serialize {t : CollTag} (i : Index t) : Nat := i.value

/-- JSON tree. JSON numbers are modelled as integers: every numeric
literal this development needs (indices, enum codes, the float literals
0.0/1.0) is an integer. -/
inductive Json where
  | null
  | bool (b : Bool)
  | num (n : Int)
  | str (s : String)
  | arr (elems : List Json)
  | obj (fields : List (String × Json))

/-- `UntypedJsonObject = HashMap<String, serde_json::Value>` (src/v2.rs
line 30), modelled as an association list. -/
abbrev JObj := List (String × Json)

/-- Parse-time errors, following the taxonomy of spec §7. -/
inductive ParseErr where
  | unknownField (object field : String)
  | missingField (object field : String)
  | invalidEnumValue
  | invalidValue (what : String)

/-- `ImportError` as used by `Root::import_from_str` (src/v2.rs lines
838-845): a serde deserialization error or a validation failure. -/
inductive ImportError where
  | deserialize (e : ParseErr)
  | invalid (msg : String)

/-- `visit_u64` of `impl Deserialize for Index<T>` (src/v2.rs lines
1013-1017): `Ok(Index::new(value as u32))` — always succeeds, truncating
the `u64` wire value to `u32`. -/
def indexVisitU64 (t : CollTag) (value : Nat) : Except ParseErr (Index t) :=
  .ok (Index.new t (value % 2 ^ 32))

/-! ## Field-extraction combinators (serde-derive semantics, spec §4.3) -/

/-- First value bound to key `k` in an object. -/
def jLookup (o : JObj) (k : String) : Option Json :=
  (o.find? (fun p => p.fst == k)).map Prod.snd

/-- First key of the object that is not in the declared wire schema. -/
def firstUnknownKey (schema : List String) (o : JObj) : Option String :=
  (o.map Prod.fst).find? (fun k => !(schema.contains k))

/-- Modelled from the spec (§4.3, §6): serde's `deny_unknown_fields` —
any key outside the declared schema aborts that object's parse with
`UnknownField(object, field)`. -/
def guardUnknown (object : String) (schema : List String) (o : JObj)
    (body : Except ParseErr α) : Except ParseErr α :=
  match firstUnknownKey schema o with
  | some k => .error (.unknownField object k)
  | none => body

/-- Modelled from the spec (§4.3): a required field absent (and not
defaultable) aborts with `MissingField`. -/
def reqField (object field : String) (o : JObj)
    (p : Json → Except ParseErr α) : Except ParseErr α :=
  match jLookup o field with
  | some j => p j
  | none => .error (.missingField object field)

/-- Modelled from the spec (§4.1): a defaultable field absent from the
input is populated with its documented constant. -/
def defField (o : JObj) (field : String) (p : Json → Except ParseErr α)
    (d : α) : Except ParseErr α :=
  match jLookup o field with
  | some j => p j
  | none => .ok d

/-- Modelled from the spec: an `Option` field is `none` when absent or
JSON `null`. -/
def optField (o : JObj) (field : String) (p : Json → Except ParseErr α) :
    Except ParseErr (Option α) :=
  match jLookup o field with
  | some Json.null => .ok none
  | some j => (p j).map some
  | none => .ok none

def parseString : Json → Except ParseErr String
  | .str s => .ok s
  | _ => .error (.invalidValue "string")

def parseBool : Json → Except ParseErr Bool
  | .bool b => .ok b
  | _ => .error (.invalidValue "bool")

/-- A `u32` struct field: serde rejects out-of-range numbers. -/
def parseU32 : Json → Except ParseErr Nat
  | .num n => if 0 ≤ n ∧ n < 2 ^ 32 then .ok n.toNat else .error (.invalidValue "u32")
  | _ => .error (.invalidValue "u32")

/-- An `f32` struct field, as a rational. -/
def parseF32 : Json → Except ParseErr Rat
  | .num n => .ok (n : Rat)
  | _ => .error (.invalidValue "f32")

/-- `Index<T>` deserialization (src/v2.rs lines 999-1021):
`deserialize_u64` hands a non-negative integer in `u64` range to
`visit_u64`, which truncates it to `u32`. -/
def parseIndex (t : CollTag) : Json → Except ParseErr (Index t)
  | .num n =>
      if 0 ≤ n ∧ n < 2 ^ 64 then indexVisitU64 t n.toNat
      else .error (.invalidValue "u64")
  | _ => .error (.invalidValue "u64")

def parseJObj : Json → Except ParseErr JObj
  | .obj fields => .ok fields
  | _ => .error (.invalidValue "object")

def parseArr (p : Json → Except ParseErr α) : Json → Except ParseErr (List α)
  | .arr elems => elems.mapM p
  | _ => .error (.invalidValue "array")

/-- A fixed-length array field such as `[f32; 3]`; the Rust type fixes
the length, the model checks it. -/
def parseFixedArr (n : Nat) (p : Json → Except ParseErr α) :
    Json → Except ParseErr (List α)
  | .arr elems =>
      if elems.length = n then elems.mapM p
      else .error (.invalidValue "array length")
  | _ => .error (.invalidValue "array")

/-- A `HashMap<String, Index<T>>` field, as an association list. -/
def parseIndexMap (t : CollTag) : Json → Except ParseErr (List (String × Index t))
  | .obj fields => fields.mapM (fun p => (parseIndex t p.snd).map (fun i => (p.fst, i)))
  | _ => .error (.invalidValue "map")

/-! ## Closed enumerations

The `enum_number!` / `enum_string!` macro invocations of `src/v2.rs` list
each enumeration's closed code set. The macro definitions themselves are
not under `src/`; their decode/encode contract is modelled from the spec
(§4.1): decode accepts exactly one value from the closed set, anything
else is `InvalidEnumValue`; encode re-emits the assigned code. -/

/-- `AccessorDataType` (src/v2.rs lines 174-183). -/
inductive AccessorDataType where
  | i8 | u8 | i16 | u16 | u32 | f32
deriving DecidableEq, Repr

def AccessorDataType.encode : AccessorDataType → Nat
  | .i8 => 5120
  | .u8 => 5121
  | .i16 => 5122
  | .u16 => 5123
  | .u32 => 5125
  | .f32 => 5126

def AccessorDataType.decode (n : Nat) : Option AccessorDataType :=
  if n = 5120 then some .i8
  else if n = 5121 then some .u8
  else if n = 5122 then some .i16
  else if n = 5123 then some .u16
  else if n = 5125 then some .u32
  else if n = 5126 then some .f32
  else none

/-- `AccessorKind` (src/v2.rs lines 185-195). -/
inductive AccessorKind where
  | scalar | vec2 | vec3 | vec4 | mat2 | mat3 | mat4
deriving DecidableEq, Repr

def AccessorKind.encode : AccessorKind → String
  | .scalar => "SCALAR"
  | .vec2 => "VEC2"
  | .vec3 => "VEC3"
  | .vec4 => "VEC4"
  | .mat2 => "MAT2"
  | .mat3 => "MAT3"
  | .mat4 => "MAT4"

def AccessorKind.decode (s : String) : Option AccessorKind :=
  if s = "SCALAR" then some .scalar
  else if s = "VEC2" then some .vec2
  else if s = "VEC3" then some .vec3
  else if s = "VEC4" then some .vec4
  else if s = "MAT2" then some .mat2
  else if s = "MAT3" then some .mat3
  else if s = "MAT4" then some .mat4
  else none

/-- `AnimationChannelTargetPath` (src/v2.rs lines 238-244); the Rust
variants are `Rotation`, `Scale`, `Translation`. -/
inductive AnimationChannelTargetPath where
  | rotationPath | scalePath | translationPath
deriving DecidableEq, Repr

def AnimationChannelTargetPath.encode : AnimationChannelTargetPath → String
  | .rotationPath => "rotation"
  | .scalePath => "scale"
  | .translationPath => "translation"

def AnimationChannelTargetPath.decode (s : String) :
    Option AnimationChannelTargetPath :=
  if s = "rotation" then some .rotationPath
  else if s = "scale" then some .scalePath
  else if s = "translation" then some .translationPath
  else none

/-- `AnimationSamplerInterpolation` (src/v2.rs lines 262-267). -/
inductive AnimationSamplerInterpolation where
  | linear | step
deriving DecidableEq, Repr

def AnimationSamplerInterpolation.encode : AnimationSamplerInterpolation → String
  | .linear => "LINEAR"
  | .step => "STEP"

def AnimationSamplerInterpolation.decode (s : String) :
    Option AnimationSamplerInterpolation :=
  if s = "LINEAR" then some .linear
  else if s = "STEP" then some .step
  else none

/-- `BufferTarget` (src/v2.rs lines 337-342). -/
inductive BufferTarget where
  | arrayBuffer | elementArrayBuffer
deriving DecidableEq, Repr

def BufferTarget.encode : BufferTarget → Nat
  | .arrayBuffer => 34962
  | .elementArrayBuffer => 34963

def BufferTarget.decode (n : Nat) : Option BufferTarget :=
  if n = 34962 then some .arrayBuffer
  else if n = 34963 then some .elementArrayBuffer
  else none

/-- `MeshPrimitiveMode` (src/v2.rs lines 572-582); default `Triangles`
(src/v2.rs lines 794-798). -/
inductive MeshPrimitiveMode where
  | points | lines | lineLoop | lineStrip | triangles | triangleStrip | triangleFan
deriving DecidableEq, Repr

def MeshPrimitiveMode.encode : MeshPrimitiveMode → Nat
  | .points => 0
  | .lines => 1
  | .lineLoop => 2
  | .lineStrip => 3
  | .triangles => 4
  | .triangleStrip => 5
  | .triangleFan => 6

def MeshPrimitiveMode.decode (n : Nat) : Option MeshPrimitiveMode :=
  if n = 0 then some .points
  else if n = 1 then some .lines
  else if n = 2 then some .lineLoop
  else if n = 3 then some .lineStrip
  else if n = 4 then some .triangles
  else if n = 5 then some .triangleStrip
  else if n = 6 then some .triangleFan
  else none

def meshPrimitiveModeDefault : MeshPrimitiveMode := .triangles

/-- `SamplerMagFilter` (src/v2.rs lines 671-676); default `Linear`
(src/v2.rs lines 800-804). -/
inductive SamplerMagFilter where
  | nearest | linear
deriving DecidableEq, Repr

def SamplerMagFilter.encode : SamplerMagFilter → Nat
  | .nearest => 9728
  | .linear => 9729

def SamplerMagFilter.decode (n : Nat) : Option SamplerMagFilter :=
  if n = 9728 then some .nearest
  else if n = 9729 then some .linear
  else none

def samplerMagFilterDefault : SamplerMagFilter := .linear

/-- `SamplerMinFilter` (src/v2.rs lines 678-687); default
`NearestMipmapLinear` (src/v2.rs lines 806-810). -/
inductive SamplerMinFilter where
  | nearest | linear | nearestMipmapNearest | linearMipmapNearest
  | nearestMipmapLinear | linearMipmapLinear
deriving DecidableEq, Repr

def SamplerMinFilter.encode : SamplerMinFilter → Nat
  | .nearest => 9728
  | .linear => 9729
  | .nearestMipmapNearest => 9984
  | .linearMipmapNearest => 9985
  | .nearestMipmapLinear => 9986
  | .linearMipmapLinear => 9987

def SamplerMinFilter.decode (n : Nat) : Option SamplerMinFilter :=
  if n = 9728 then some .nearest
  else if n = 9729 then some .linear
  else if n = 9984 then some .nearestMipmapNearest
  else if n = 9985 then some .linearMipmapNearest
  else if n = 9986 then some .nearestMipmapLinear
  else if n = 9987 then some .linearMipmapLinear
  else none

def samplerMinFilterDefault : SamplerMinFilter := .nearestMipmapLinear

/-- `SamplerWrappingMode` (src/v2.rs lines 689-695); default `Repeat`
(src/v2.rs lines 812-816). The Rust variants are `ClampToEdge`,
`MirroredRepeat`, `Repeat`. -/
inductive SamplerWrappingMode where
  | clampToEdge | mirroredRepeat | repeatMode
deriving DecidableEq, Repr

def SamplerWrappingMode.encode : SamplerWrappingMode → Nat
  | .clampToEdge => 33071
  | .mirroredRepeat => 33648
  | .repeatMode => 10497

def SamplerWrappingMode.decode (n : Nat) : Option SamplerWrappingMode :=
  if n = 33071 then some .clampToEdge
  else if n = 33648 then some .mirroredRepeat
  else if n = 10497 then some .repeatMode
  else none

def samplerWrappingModeDefault : SamplerWrappingMode := .repeatMode

/-- `TextureDataType` (src/v2.rs lines 758-765); default `U8`
(src/v2.rs lines 818-822). -/
inductive TextureDataType where
  | u8 | u16R5G6B5 | u16R4G4B4A4 | u16R5G5B5A1
deriving DecidableEq, Repr

def TextureDataType.encode : TextureDataType → Nat
  | .u8 => 5121
  | .u16R5G6B5 => 33635
  | .u16R4G4B4A4 => 32819
  | .u16R5G5B5A1 => 32820

def TextureDataType.decode (n : Nat) : Option TextureDataType :=
  if n = 5121 then some .u8
  else if n = 33635 then some .u16R5G6B5
  else if n = 32819 then some .u16R4G4B4A4
  else if n = 32820 then some .u16R5G5B5A1
  else none

def textureDataTypeDefault : TextureDataType := .u8

/-- `TextureFormat` (src/v2.rs lines 767-775); default `Rgba`
(src/v2.rs lines 824-828). -/
inductive TextureFormat where
  | alpha | rgb | rgba | luminance | luminanceAlpha
deriving DecidableEq, Repr

def TextureFormat.encode : TextureFormat → Nat
  | .alpha => 6406
  | .rgb => 6407
  | .rgba => 6408
  | .luminance => 6409
  | .luminanceAlpha => 6410

def TextureFormat.decode (n : Nat) : Option TextureFormat :=
  if n = 6406 then some .alpha
  else if n = 6407 then some .rgb
  else if n = 6408 then some .rgba
  else if n = 6409 then some .luminance
  else if n = 6410 then some .luminanceAlpha
  else none

def textureFormatDefault : TextureFormat := .rgba

/-- `TextureTarget` (src/v2.rs lines 777-781); default `Texture2d`
(src/v2.rs lines 830-834). -/
inductive TextureTarget where
  | texture2d
deriving DecidableEq, Repr

def TextureTarget.encode : TextureTarget → Nat
  | .texture2d => 3553

def TextureTarget.decode (n : Nat) : Option TextureTarget :=
  if n = 3553 then some .texture2d else none

def textureTargetDefault : TextureTarget := .texture2d

/-- Modelled from the spec (§4.1): a numeric-coded enumeration field
accepts one value from the closed set; any other value yields
`InvalidEnumValue`. -/
def parseEnumNum (decode : Nat → Option α) : Json → Except ParseErr α
  | .num n =>
      if 0 ≤ n then
        match decode n.toNat with
        | some e => .ok e
        | none => .error .invalidEnumValue
      else .error .invalidEnumValue
  | _ => .error (.invalidValue "enum code")

/-- Modelled from the spec (§4.1): a string-coded enumeration field with
exact, case-sensitive matching. -/
def parseEnumStr (decode : String → Option α) : Json → Except ParseErr α
  | .str s =>
      match decode s with
      | some e => .ok e
      | none => .error .invalidEnumValue
  | _ => .error (.invalidValue "enum string")

/-! ## Entity structures (src/v2.rs, field-for-field) -/

/-- `extensions` / `extras` field type (src/v2.rs lines 33, 36). -/
abbrev Extensions := Option JObj

/-- `AccessorSparseIndices` (src/v2.rs lines 123-141). Note: both
`buffer_view` and `byte_offset` are declared with the wire name
`"byteOffset"`. -/
structure AccessorSparseIndices where
  buffer_view : Index CollTag.bufferView
  byte_offset : Nat
  data_type : AccessorDataType
  extensions : Extensions
  extras : Extensions

/-- `AccessorSparseValues` (src/v2.rs lines 158-172); the same duplicated
wire name `"byteOffset"`. -/
structure AccessorSparseValues where
  buffer_view : Index CollTag.bufferView
  byte_offset : Nat
  extensions : Extensions
  extras : Extensions

/-- `AccessorSparseStorage` (src/v2.rs lines 143-156). This struct is the
only one in the file without `#[serde(deny_unknown_fields)]`. -/
structure AccessorSparseStorage where
  count : Nat
  extensions : Extensions
  extras : Extensions
  indices : AccessorSparseIndices
  values : AccessorSparseValues

/-- `Accessor` (src/v2.rs lines 84-120). -/
structure Accessor where
  buffer_view : Index CollTag.bufferView
  byte_offset : Nat
  count : Nat
  data_type : AccessorDataType
  extensions : Extensions
  extras : Extensions
  kind : AccessorKind
  min : Json
  max : Json
  name : Option String
  normalized : Bool
  sparse : Option AccessorSparseStorage

/-- `AnimationChannelTarget` (src/v2.rs lines 224-236). -/
structure AnimationChannelTarget where
  extensions : Extensions
  extras : Extensions
  node : Index CollTag.node
  path : AnimationChannelTargetPath

/-- `AnimationChannel` (src/v2.rs lines 214-222). Its `sampler` field is
declared `Index<Sampler>` in the source — the `Sampler` texture-sampler
type, not `AnimationSampler`. -/
structure AnimationChannel where
  sampler : Index CollTag.sampler
  target : AnimationChannelTarget

/-- `AnimationSampler` (src/v2.rs lines 246-260). -/
structure AnimationSampler where
  extensions : Extensions
  extras : Extensions
  input : Index CollTag.accessor
  interpolation : AnimationSamplerInterpolation
  output : Index CollTag.accessor

/-- `Animation` (src/v2.rs lines 197-212). -/
structure Animation where
  extensions : Extensions
  extras : Extensions
  channels : List AnimationChannel
  name : Option String
  samplers : List AnimationSampler

/-- `Asset` (src/v2.rs lines 269-285). -/
structure Asset where
  copyright : Option String
  extensions : Extensions
  extras : Extensions
  generator : Option String
  version : String

/-- `asset_version_default` (src/v2.rs lines 287-289). -/
def asset_version_default : String := "2.0"

/-- `Buffer` (src/v2.rs lines 291-309). -/
structure Buffer where
  byte_length : Nat
  extensions : Extensions
  extras : Extensions
  name : Option String
  uri : String

/-- `BufferView` (src/v2.rs lines 311-335). `byte_stride` carries no
`rename`, so its wire name is `"byte_stride"`. -/
structure BufferView where
  buffer : Index CollTag.buffer
  byte_length : Nat
  byte_offset : Nat
  byte_stride : Nat
  extensions : Extensions
  extras : Extensions
  name : Option String
  target : Option BufferTarget

/-- `CameraOrthographic` (src/v2.rs lines 366-386). -/
structure CameraOrthographic where
  extensions : Extensions
  extras : Extensions
  x_mag : Rat
  y_mag : Rat
  z_far : Rat
  z_near : Rat

/-- `CameraPerspective` (src/v2.rs lines 388-408). -/
structure CameraPerspective where
  aspect_ratio : Rat
  extensions : Extensions
  extras : Extensions
  y_fov : Rat
  z_far : Rat
  z_near : Rat

/-- `Camera` (src/v2.rs lines 344-364). -/
structure Camera where
  extensions : Extensions
  extras : Extensions
  name : Option String
  orthographic : Option CameraOrthographic
  perspective : Option CameraPerspective
  ty : String

/-- `Image` (src/v2.rs lines 410-430). -/
structure Image where
  buffer_view : Option (Index CollTag.bufferView)
  extensions : Extensions
  extras : Extensions
  mime_type : Option String
  name : Option String
  uri : Option String

/-- `TextureInfo` (src/v2.rs lines 783-792). -/
structure TextureInfo where
  index : Index CollTag.texture
  tex_coord : Nat

/-- `MaterialNormalTexture` (src/v2.rs lines 492-504). -/
structure MaterialNormalTexture where
  index : Index CollTag.texture
  scale : Rat
  tex_coord : Nat

/-- `material_normal_texture_scale_default` (src/v2.rs lines 506-508). -/
def material_normal_texture_scale_default : Rat := 1

/-- `MaterialOcclusionTexture` (src/v2.rs lines 510-522). -/
structure MaterialOcclusionTexture where
  index : Index CollTag.texture
  strength : Rat
  tex_coord : Nat

/-- `material_occlusion_texture_strength_default` (src/v2.rs lines 524-526). -/
def material_occlusion_texture_strength_default : Rat := 1

/-- `MaterialPbrMetallicRoughness` (src/v2.rs lines 457-478). -/
structure MaterialPbrMetallicRoughness where
  base_color_factor : List Rat
  base_color_texture : TextureInfo
  metallic_factor : Rat
  roughness_factor : Rat
  metallic_roughness_texture : TextureInfo

/-- `material_pbr_metallic_roughness_base_color_factor_default`
(src/v2.rs lines 480-482). -/
def material_pbr_base_color_factor_default : List Rat := [1, 1, 1, 1]

/-- `material_pbr_metallic_roughness_metallic_factor_default`
(src/v2.rs lines 484-486). -/
def material_pbr_metallic_factor_default : Rat := 1

/-- `material_pbr_metallic_roughness_roughness_factor_default`
(src/v2.rs lines 488-490). -/
def material_pbr_roughness_factor_default : Rat := 1

/-- `Material` (src/v2.rs lines 432-455). The four texture sub-objects
are plain (non-`Option`, non-defaulted) fields. -/
structure Material where
  extensions : Extensions
  extras : Extensions
  name : Option String
  pbr : MaterialPbrMetallicRoughness
  normal_texture : MaterialNormalTexture
  occlusion_texture : MaterialOcclusionTexture
  emissive_texture : TextureInfo
  emissive_factor : List Rat

/-- `MeshPrimitive` (src/v2.rs lines 546-570). -/
structure MeshPrimitive where
  attributes : List (String × Index CollTag.accessor)
  extensions : Extensions
  extras : Extensions
  indices : Option (Index CollTag.accessor)
  material : Index CollTag.material
  mode : MeshPrimitiveMode
  targets : List (List (String × Index CollTag.accessor))

/-- `Mesh` (src/v2.rs lines 528-544). -/
structure Mesh where
  extensions : Extensions
  extras : Extensions
  name : Option String
  primitives : List MeshPrimitive
  weights : List Rat

/-- `Node` (src/v2.rs lines 584-627). -/
structure Node where
  camera : Option (Index CollTag.camera)
  children : List (Index CollTag.node)
  extensions : Extensions
  extras : Extensions
  matrix : List (List Rat)
  mesh : Index CollTag.mesh
  name : Option String
  rotation : List Rat
  scale : List Rat
  translation : List Rat
  skin : Option (Index CollTag.skin)
  weights : Option (List Rat)

/-- `node_matrix_default` (src/v2.rs lines 629-636): the 4x4 identity. -/
def node_matrix_default : List (List Rat) :=
  [[1, 0, 0, 0], [0, 1, 0, 0], [0, 0, 1, 0], [0, 0, 0, 1]]

/-- `node_rotation_default` (src/v2.rs lines 638-640). -/
def node_rotation_default : List Rat := [0, 0, 0, 1]

/-- `node_scale_default` (src/v2.rs lines 642-644). -/
def node_scale_default : List Rat := [1, 1, 1]

/-- `Sampler` (src/v2.rs lines 646-669). -/
structure Sampler where
  extensions : Extensions
  extras : Extensions
  mag_filter : SamplerMagFilter
  min_filter : SamplerMinFilter
  name : Option String
  wrap_s : SamplerWrappingMode
  wrap_t : SamplerWrappingMode

/-- `Scene` (src/v2.rs lines 697-710). -/
structure Scene where
  extensions : Extensions
  extras : Extensions
  name : Option String
  nodes : List (Index CollTag.node)

/-- `Skin` (src/v2.rs lines 712-729). -/
structure Skin where
  extensions : Extensions
  extras : Extensions
  inverse_bind_matrices : Option (Index CollTag.accessor)
  joints : List (Index CollTag.node)
  name : Option String
  skeleton : Option (Index CollTag.node)

/-- `Texture` (src/v2.rs lines 731-756). -/
structure Texture where
  data_type : TextureDataType
  extensions : Extensions
  extras : Extensions
  name : Option String
  format : TextureFormat
  internal_format : TextureFormat
  sampler : Index CollTag.sampler
  source : Index CollTag.image
  target : TextureTarget

/-- `Root` (src/v2.rs lines 38-76). -/
structure Root where
  accessors : List Accessor
  animations : List Animation
  asset : Asset
  buffers : List Buffer
  buffer_views : List BufferView
  extensions_used : List String
  extensions_required : List String
  cameras : List Camera
  images : List Image
  materials : List Material
  meshes : List Mesh
  nodes : List Node
  samplers : List Sampler
  scene : Index CollTag.scene
  scenes : List Scene
  skins : List Skin
  textures : List Texture

/-- `root_scene_default` (src/v2.rs lines 78-80). -/
def root_scene_default : Index CollTag.scene := ⟨0⟩

/-! ## Per-struct parsers

Modelled from the spec (§4.3, §6): serde-derive deserialization of each
struct. The wire-field schema of each struct (renames, defaults,
required-ness, `deny_unknown_fields`) is read off the attributes in
`src/v2.rs`. -/

def inObj (p : JObj → Except ParseErr α) : Json → Except ParseErr α
  | .obj o => p o
  | _ => .error (.invalidValue "object")

def sparseIndicesWireFields : List String :=
  ["byteOffset", "data_type", "extensions", "extras"]

/-- `AccessorSparseIndices` parse: both `buffer_view` and `byte_offset`
declare the wire name `"byteOffset"` (src/v2.rs lines 127, 130), so the
schema has that single wire key and both fields read it; `"bufferView"`
is not a key of the schema. -/
def parseAccessorSparseIndices (o : JObj) : Except ParseErr AccessorSparseIndices :=
  guardUnknown "AccessorSparseIndices" sparseIndicesWireFields o (do
    let buffer_view ← reqField "AccessorSparseIndices" "byteOffset" o
      (parseIndex CollTag.bufferView)
    let byte_offset ← defField o "byteOffset" parseU32 0
    let data_type ← reqField "AccessorSparseIndices" "data_type" o
      (parseEnumNum AccessorDataType.decode)
    let extensions ← optField o "extensions" parseJObj
    let extras ← optField o "extras" parseJObj
    .ok { buffer_view, byte_offset, data_type, extensions, extras })

def sparseValuesWireFields : List String := ["byteOffset", "extensions", "extras"]

/-- `AccessorSparseValues` parse (src/v2.rs lines 158-172), the same
duplicated `"byteOffset"` wire name. -/
def parseAccessorSparseValues (o : JObj) : Except ParseErr AccessorSparseValues :=
  guardUnknown "AccessorSparseValues" sparseValuesWireFields o (do
    let buffer_view ← reqField "AccessorSparseValues" "byteOffset" o
      (parseIndex CollTag.bufferView)
    let byte_offset ← defField o "byteOffset" parseU32 0
    let extensions ← optField o "extensions" parseJObj
    let extras ← optField o "extras" parseJObj
    .ok { buffer_view, byte_offset, extensions, extras })

/-- `AccessorSparseStorage` parse (src/v2.rs lines 143-156): the one
struct without `deny_unknown_fields`, so unknown keys are ignored. -/
def parseAccessorSparseStorage (o : JObj) : Except ParseErr AccessorSparseStorage := do
  let count ← reqField "AccessorSparseStorage" "count" o parseU32
  let extensions ← optField o "extensions" parseJObj
  let extras ← optField o "extras" parseJObj
  let indices ← reqField "AccessorSparseStorage" "indices" o (inObj parseAccessorSparseIndices)
  let values ← reqField "AccessorSparseStorage" "values" o (inObj parseAccessorSparseValues)
  .ok { count, extensions, extras, indices, values }

def accessorWireFields : List String :=
  ["bufferView", "byteOffset", "count", "componentType", "extensions", "extras",
   "type", "min", "max", "name", "normalized", "sparse"]

/-- `Accessor` parse (src/v2.rs lines 84-120). -/
def parseAccessor (o : JObj) : Except ParseErr Accessor :=
  guardUnknown "Accessor" accessorWireFields o (do
    let buffer_view ← reqField "Accessor" "bufferView" o (parseIndex CollTag.bufferView)
    let byte_offset ← reqField "Accessor" "byteOffset" o parseU32
    let count ← reqField "Accessor" "count" o parseU32
    let data_type ← reqField "Accessor" "componentType" o (parseEnumNum AccessorDataType.decode)
    let extensions ← optField o "extensions" parseJObj
    let extras ← optField o "extras" parseJObj
    let kind ← reqField "Accessor" "type" o (parseEnumStr AccessorKind.decode)
    let min ← defField o "min" (fun j => .ok j) Json.null
    let max ← defField o "max" (fun j => .ok j) Json.null
    let name ← optField o "name" parseString
    let normalized ← defField o "normalized" parseBool false
    let sparse ← optField o "sparse" (inObj parseAccessorSparseStorage)
    .ok { buffer_view, byte_offset, count, data_type, extensions, extras,
          kind, min, max, name, normalized, sparse })

def channelTargetWireFields : List String := ["extensions", "extras", "node", "path"]

/-- `AnimationChannelTarget` parse (src/v2.rs lines 224-236). -/
def parseAnimationChannelTarget (o : JObj) : Except ParseErr AnimationChannelTarget :=
  guardUnknown "AnimationChannelTarget" channelTargetWireFields o (do
    let extensions ← optField o "extensions" parseJObj
    let extras ← optField o "extras" parseJObj
    let node ← reqField "AnimationChannelTarget" "node" o (parseIndex CollTag.node)
    let path ← reqField "AnimationChannelTarget" "path" o
      (parseEnumStr AnimationChannelTargetPath.decode)
    .ok { extensions, extras, node, path })

def channelWireFields : List String := ["sampler", "target"]

/-- `AnimationChannel` parse (src/v2.rs lines 214-222): `sampler` is an
`Index<Sampler>` in the source. -/
def parseAnimationChannel (o : JObj) : Except ParseErr AnimationChannel :=
  guardUnknown "AnimationChannel" channelWireFields o (do
    let sampler ← reqField "AnimationChannel" "sampler" o (parseIndex CollTag.sampler)
    let target ← reqField "AnimationChannel" "target" o (inObj parseAnimationChannelTarget)
    .ok { sampler, target })

def animationSamplerWireFields : List String :=
  ["extensions", "extras", "input", "interpolation", "output"]

/-- `AnimationSampler` parse (src/v2.rs lines 246-260). -/
def parseAnimationSampler (o : JObj) : Except ParseErr AnimationSampler :=
  guardUnknown "AnimationSampler" animationSamplerWireFields o (do
    let extensions ← optField o "extensions" parseJObj
    let extras ← optField o "extras" parseJObj
    let input ← reqField "AnimationSampler" "input" o (parseIndex CollTag.accessor)
    let interpolation ← reqField "AnimationSampler" "interpolation" o
      (parseEnumStr AnimationSamplerInterpolation.decode)
    let output ← reqField "AnimationSampler" "output" o (parseIndex CollTag.accessor)
    .ok { extensions, extras, input, interpolation, output })

def animationWireFields : List String :=
  ["extensions", "extras", "channels", "name", "samplers"]

/-- `Animation` parse (src/v2.rs lines 197-212). -/
def parseAnimation (o : JObj) : Except ParseErr Animation :=
  guardUnknown "Animation" animationWireFields o (do
    let extensions ← optField o "extensions" parseJObj
    let extras ← optField o "extras" parseJObj
    let channels ← reqField "Animation" "channels" o (parseArr (inObj parseAnimationChannel))
    let name ← optField o "name" parseString
    let samplers ← reqField "Animation" "samplers" o (parseArr (inObj parseAnimationSampler))
    .ok { extensions, extras, channels, name, samplers })

def assetWireFields : List String :=
  ["copyright", "extensions", "extras", "generator", "version"]

/-- `Asset` parse (src/v2.rs lines 269-289). -/
def parseAsset (o : JObj) : Except ParseErr Asset :=
  guardUnknown "Asset" assetWireFields o (do
    let copyright ← optField o "copyright" parseString
    let extensions ← optField o "extensions" parseJObj
    let extras ← optField o "extras" parseJObj
    let generator ← optField o "generator" parseString
    let version ← defField o "version" parseString asset_version_default
    .ok { copyright, extensions, extras, generator, version })

def bufferWireFields : List String :=
  ["byteLength", "extensions", "extras", "name", "uri"]

/-- `Buffer` parse (src/v2.rs lines 291-309). -/
def parseBuffer (o : JObj) : Except ParseErr Buffer :=
  guardUnknown "Buffer" bufferWireFields o (do
    let byte_length ← defField o "byteLength" parseU32 0
    let extensions ← optField o "extensions" parseJObj
    let extras ← optField o "extras" parseJObj
    let name ← optField o "name" parseString
    let uri ← reqField "Buffer" "uri" o parseString
    .ok { byte_length, extensions, extras, name, uri })

def bufferViewWireFields : List String :=
  ["buffer", "byteLength", "byteOffset", "byte_stride", "extensions", "extras",
   "name", "target"]

/-- `BufferView` parse (src/v2.rs lines 311-335). -/
def parseBufferView (o : JObj) : Except ParseErr BufferView :=
  guardUnknown "BufferView" bufferViewWireFields o (do
    let buffer ← reqField "BufferView" "buffer" o (parseIndex CollTag.buffer)
    let byte_length ← reqField "BufferView" "byteLength" o parseU32
    let byte_offset ← reqField "BufferView" "byteOffset" o parseU32
    let byte_stride ← defField o "byte_stride" parseU32 0
    let extensions ← optField o "extensions" parseJObj
    let extras ← optField o "extras" parseJObj
    let name ← optField o "name" parseString
    let target ← optField o "target" (parseEnumNum BufferTarget.decode)
    .ok { buffer, byte_length, byte_offset, byte_stride, extensions, extras,
          name, target })

def cameraOrthographicWireFields : List String :=
  ["extensions", "extras", "xmag", "ymag", "zfar", "znear"]

/-- `CameraOrthographic` parse (src/v2.rs lines 366-386). -/
def parseCameraOrthographic (o : JObj) : Except ParseErr CameraOrthographic :=
  guardUnknown "CameraOrthographic" cameraOrthographicWireFields o (do
    let extensions ← optField o "extensions" parseJObj
    let extras ← optField o "extras" parseJObj
    let x_mag ← defField o "xmag" parseF32 0
    let y_mag ← defField o "ymag" parseF32 0
    let z_far ← defField o "zfar" parseF32 0
    let z_near ← defField o "znear" parseF32 0
    .ok { extensions, extras, x_mag, y_mag, z_far, z_near })

def cameraPerspectiveWireFields : List String :=
  ["aspectRatio", "extensions", "extras", "yfov", "zfar", "znear"]

/-- `CameraPerspective` parse (src/v2.rs lines 388-408). -/
def parseCameraPerspective (o : JObj) : Except ParseErr CameraPerspective :=
  guardUnknown "CameraPerspective" cameraPerspectiveWireFields o (do
    let aspect_ratio ← defField o "aspectRatio" parseF32 0
    let extensions ← optField o "extensions" parseJObj
    let extras ← optField o "extras" parseJObj
    let y_fov ← defField o "yfov" parseF32 0
    let z_far ← defField o "zfar" parseF32 0
    let z_near ← defField o "znear" parseF32 0
    .ok { aspect_ratio, extensions, extras, y_fov, z_far, z_near })

def cameraWireFields : List String :=
  ["extensions", "extras", "name", "orthographic", "perspective", "type"]

/-- `Camera` parse (src/v2.rs lines 344-364). -/
def parseCamera (o : JObj) : Except ParseErr Camera :=
  guardUnknown "Camera" cameraWireFields o (do
    let extensions ← optField o "extensions" parseJObj
    let extras ← optField o "extras" parseJObj
    let name ← optField o "name" parseString
    let orthographic ← optField o "orthographic" (inObj parseCameraOrthographic)
    let perspective ← optField o "perspective" (inObj parseCameraPerspective)
    let ty ← reqField "Camera" "type" o parseString
    .ok { extensions, extras, name, orthographic, perspective, ty })

def imageWireFields : List String :=
  ["bufferView", "extensions", "extras", "mimeType", "name", "uri"]

/-- `Image` parse (src/v2.rs lines 410-430). -/
def parseImage (o : JObj) : Except ParseErr Image :=
  guardUnknown "Image" imageWireFields o (do
    let buffer_view ← optField o "bufferView" (parseIndex CollTag.bufferView)
    let extensions ← optField o "extensions" parseJObj
    let extras ← optField o "extras" parseJObj
    let mime_type ← optField o "mimeType" parseString
    let name ← optField o "name" parseString
    let uri ← optField o "uri" parseString
    .ok { buffer_view, extensions, extras, mime_type, name, uri })

def textureInfoWireFields : List String := ["index", "texCoord"]

/-- `TextureInfo` parse (src/v2.rs lines 783-792). -/
def parseTextureInfo (o : JObj) : Except ParseErr TextureInfo :=
  guardUnknown "TextureInfo" textureInfoWireFields o (do
    let index ← reqField "TextureInfo" "index" o (parseIndex CollTag.texture)
    let tex_coord ← defField o "texCoord" parseU32 0
    .ok { index, tex_coord })

def materialNormalTextureWireFields : List String := ["index", "scale", "texCoord"]

/-- `MaterialNormalTexture` parse (src/v2.rs lines 492-508). -/
def parseMaterialNormalTexture (o : JObj) : Except ParseErr MaterialNormalTexture :=
  guardUnknown "MaterialNormalTexture" materialNormalTextureWireFields o (do
    let index ← reqField "MaterialNormalTexture" "index" o (parseIndex CollTag.texture)
    let scale ← defField o "scale" parseF32 material_normal_texture_scale_default
    let tex_coord ← defField o "texCoord" parseU32 0
    .ok { index, scale, tex_coord })

def materialOcclusionTextureWireFields : List String := ["index", "strength", "texCoord"]

/-- `MaterialOcclusionTexture` parse (src/v2.rs lines 510-526). -/
def parseMaterialOcclusionTexture (o : JObj) : Except ParseErr MaterialOcclusionTexture :=
  guardUnknown "MaterialOcclusionTexture" materialOcclusionTextureWireFields o (do
    let index ← reqField "MaterialOcclusionTexture" "index" o (parseIndex CollTag.texture)
    let strength ← defField o "strength" parseF32 material_occlusion_texture_strength_default
    let tex_coord ← defField o "texCoord" parseU32 0
    .ok { index, strength, tex_coord })

def pbrWireFields : List String :=
  ["baseColorFactor", "baseColorTexture", "metallicFactor", "roughnessFactor",
   "metallicRoughnessTexture"]

/-- `MaterialPbrMetallicRoughness` parse (src/v2.rs lines 457-490):
`baseColorTexture` and `metallicRoughnessTexture` are required. -/
def parseMaterialPbr (o : JObj) : Except ParseErr MaterialPbrMetallicRoughness :=
  guardUnknown "MaterialPbrMetallicRoughness" pbrWireFields o (do
    let base_color_factor ← defField o "baseColorFactor" (parseFixedArr 4 parseF32)
      material_pbr_base_color_factor_default
    let base_color_texture ← reqField "MaterialPbrMetallicRoughness" "baseColorTexture" o
      (inObj parseTextureInfo)
    let metallic_factor ← defField o "metallicFactor" parseF32
      material_pbr_metallic_factor_default
    let roughness_factor ← defField o "roughnessFactor" parseF32
      material_pbr_roughness_factor_default
    let metallic_roughness_texture ← reqField "MaterialPbrMetallicRoughness"
      "metallicRoughnessTexture" o (inObj parseTextureInfo)
    .ok { base_color_factor, base_color_texture, metallic_factor,
          roughness_factor, metallic_roughness_texture })

def materialWireFields : List String :=
  ["extensions", "extras", "name", "pbrMetallicRoughness", "normalTexture",
   "occlusionTexture", "emissiveTexture", "emissiveFactor"]

/-- `Material` parse (src/v2.rs lines 432-455): `pbrMetallicRoughness`,
`normalTexture`, `occlusionTexture` and `emissiveTexture` are required. -/
def parseMaterial (o : JObj) : Except ParseErr Material :=
  guardUnknown "Material" materialWireFields o (do
    let extensions ← optField o "extensions" parseJObj
    let extras ← optField o "extras" parseJObj
    let name ← optField o "name" parseString
    let pbr ← reqField "Material" "pbrMetallicRoughness" o (inObj parseMaterialPbr)
    let normal_texture ← reqField "Material" "normalTexture" o (inObj parseMaterialNormalTexture)
    let occlusion_texture ← reqField "Material" "occlusionTexture" o
      (inObj parseMaterialOcclusionTexture)
    let emissive_texture ← reqField "Material" "emissiveTexture" o (inObj parseTextureInfo)
    let emissive_factor ← defField o "emissiveFactor" (parseFixedArr 3 parseF32) [0, 0, 0]
    .ok { extensions, extras, name, pbr, normal_texture, occlusion_texture,
          emissive_texture, emissive_factor })

def meshPrimitiveWireFields : List String :=
  ["attributes", "extensions", "extras", "indices", "material", "mode", "targets"]

/-- `MeshPrimitive` parse (src/v2.rs lines 546-570). -/
def parseMeshPrimitive (o : JObj) : Except ParseErr MeshPrimitive :=
  guardUnknown "MeshPrimitive" meshPrimitiveWireFields o (do
    let attributes ← defField o "attributes" (parseIndexMap CollTag.accessor) []
    let extensions ← optField o "extensions" parseJObj
    let extras ← optField o "extras" parseJObj
    let indices ← optField o "indices" (parseIndex CollTag.accessor)
    let material ← reqField "MeshPrimitive" "material" o (parseIndex CollTag.material)
    let mode ← defField o "mode" (parseEnumNum MeshPrimitiveMode.decode)
      meshPrimitiveModeDefault
    let targets ← defField o "targets" (parseArr (parseIndexMap CollTag.accessor)) []
    .ok { attributes, extensions, extras, indices, material, mode, targets })

def meshWireFields : List String :=
  ["extensions", "extras", "name", "primitives", "weights"]

/-- `Mesh` parse (src/v2.rs lines 528-544). -/
def parseMesh (o : JObj) : Except ParseErr Mesh :=
  guardUnknown "Mesh" meshWireFields o (do
    let extensions ← optField o "extensions" parseJObj
    let extras ← optField o "extras" parseJObj
    let name ← optField o "name" parseString
    let primitives ← reqField "Mesh" "primitives" o (parseArr (inObj parseMeshPrimitive))
    let weights ← defField o "weights" (parseArr parseF32) []
    .ok { extensions, extras, name, primitives, weights })

def nodeWireFields : List String :=
  ["camera", "children", "extensions", "extras", "matrix", "mesh", "name",
   "rotation", "scale", "translation", "skin", "weights"]

/-- `Node` parse (src/v2.rs lines 584-644): `matrix` defaults to the 4x4
identity, `mesh` is required. -/
def parseNode (o : JObj) : Except ParseErr Node :=
  guardUnknown "Node" nodeWireFields o (do
    let camera ← optField o "camera" (parseIndex CollTag.camera)
    let children ← defField o "children" (parseArr (parseIndex CollTag.node)) []
    let extensions ← optField o "extensions" parseJObj
    let extras ← optField o "extras" parseJObj
    let matrix ← defField o "matrix" (parseFixedArr 4 (parseFixedArr 4 parseF32))
      node_matrix_default
    let mesh ← reqField "Node" "mesh" o (parseIndex CollTag.mesh)
    let name ← optField o "name" parseString
    let rotation ← defField o "rotation" (parseFixedArr 4 parseF32) node_rotation_default
    let scale ← defField o "scale" (parseFixedArr 3 parseF32) node_scale_default
    let translation ← defField o "translation" (parseFixedArr 3 parseF32) [0, 0, 0]
    let skin ← optField o "skin" (parseIndex CollTag.skin)
    let weights ← optField o "weights" (parseArr parseF32)
    .ok { camera, children, extensions, extras, matrix, mesh, name,
          rotation, scale, translation, skin, weights })

def samplerWireFields : List String :=
  ["extensions", "extras", "magFilter", "minFilter", "name", "wrapS", "wrapT"]

/-- `Sampler` parse (src/v2.rs lines 646-669). -/
def parseSampler (o : JObj) : Except ParseErr Sampler :=
  guardUnknown "Sampler" samplerWireFields o (do
    let extensions ← optField o "extensions" parseJObj
    let extras ← optField o "extras" parseJObj
    let mag_filter ← defField o "magFilter" (parseEnumNum SamplerMagFilter.decode)
      samplerMagFilterDefault
    let min_filter ← defField o "minFilter" (parseEnumNum SamplerMinFilter.decode)
      samplerMinFilterDefault
    let name ← optField o "name" parseString
    let wrap_s ← defField o "wrapS" (parseEnumNum SamplerWrappingMode.decode)
      samplerWrappingModeDefault
    let wrap_t ← defField o "wrapT" (parseEnumNum SamplerWrappingMode.decode)
      samplerWrappingModeDefault
    .ok { extensions, extras, mag_filter, min_filter, name, wrap_s, wrap_t })

def sceneWireFields : List String := ["extensions", "extras", "name", "nodes"]

/-- `Scene` parse (src/v2.rs lines 697-710). -/
def parseScene (o : JObj) : Except ParseErr Scene :=
  guardUnknown "Scene" sceneWireFields o (do
    let extensions ← optField o "extensions" parseJObj
    let extras ← optField o "extras" parseJObj
    let name ← optField o "name" parseString
    let nodes ← defField o "nodes" (parseArr (parseIndex CollTag.node)) []
    .ok { extensions, extras, name, nodes })

def skinWireFields : List String :=
  ["extensions", "extras", "inverseBindMatrices", "joints", "name", "skeleton"]

/-- `Skin` parse (src/v2.rs lines 712-729). -/
def parseSkin (o : JObj) : Except ParseErr Skin :=
  guardUnknown "Skin" skinWireFields o (do
    let extensions ← optField o "extensions" parseJObj
    let extras ← optField o "extras" parseJObj
    let inverse_bind_matrices ← optField o "inverseBindMatrices" (parseIndex CollTag.accessor)
    let joints ← reqField "Skin" "joints" o (parseArr (parseIndex CollTag.node))
    let name ← optField o "name" parseString
    let skeleton ← optField o "skeleton" (parseIndex CollTag.node)
    .ok { extensions, extras, inverse_bind_matrices, joints, name, skeleton })

def textureWireFields : List String :=
  ["type", "extensions", "extras", "name", "format", "internalFormat",
   "sampler", "source", "target"]

/-- `Texture` parse (src/v2.rs lines 731-756). -/
def parseTexture (o : JObj) : Except ParseErr Texture :=
  guardUnknown "Texture" textureWireFields o (do
    let data_type ← defField o "type" (parseEnumNum TextureDataType.decode)
      textureDataTypeDefault
    let extensions ← optField o "extensions" parseJObj
    let extras ← optField o "extras" parseJObj
    let name ← optField o "name" parseString
    let format ← defField o "format" (parseEnumNum TextureFormat.decode)
      textureFormatDefault
    let internal_format ← defField o "internalFormat" (parseEnumNum TextureFormat.decode)
      textureFormatDefault
    let sampler ← reqField "Texture" "sampler" o (parseIndex CollTag.sampler)
    let source ← reqField "Texture" "source" o (parseIndex CollTag.image)
    let target ← defField o "target" (parseEnumNum TextureTarget.decode)
      textureTargetDefault
    .ok { data_type, extensions, extras, name, format, internal_format,
          sampler, source, target })

def rootWireFields : List String :=
  ["accessors", "animations", "asset", "buffers", "bufferViews",
   "extensionsUsed", "extensionsRequired", "cameras", "images", "materials",
   "meshes", "nodes", "samplers", "scene", "scenes", "skins", "textures"]

/-- `Root` parse (src/v2.rs lines 38-80): every collection defaults to
empty, `asset` is required, `scene` defaults to index 0. -/
def parseRoot (o : JObj) : Except ParseErr Root :=
  guardUnknown "Root" rootWireFields o (do
    let accessors ← defField o "accessors" (parseArr (inObj parseAccessor)) []
    let animations ← defField o "animations" (parseArr (inObj parseAnimation)) []
    let asset ← reqField "Root" "asset" o (inObj parseAsset)
    let buffers ← defField o "buffers" (parseArr (inObj parseBuffer)) []
    let buffer_views ← defField o "bufferViews" (parseArr (inObj parseBufferView)) []
    let extensions_used ← defField o "extensionsUsed" (parseArr parseString) []
    let extensions_required ← defField o "extensionsRequired" (parseArr parseString) []
    let cameras ← defField o "cameras" (parseArr (inObj parseCamera)) []
    let images ← defField o "images" (parseArr (inObj parseImage)) []
    let materials ← defField o "materials" (parseArr (inObj parseMaterial)) []
    let meshes ← defField o "meshes" (parseArr (inObj parseMesh)) []
    let nodes ← defField o "nodes" (parseArr (inObj parseNode)) []
    let samplers ← defField o "samplers" (parseArr (inObj parseSampler)) []
    let scene ← defField o "scene" (parseIndex CollTag.scene) root_scene_default
    let scenes ← defField o "scenes" (parseArr (inObj parseScene)) []
    let skins ← defField o "skins" (parseArr (inObj parseSkin)) []
    let textures ← defField o "textures" (parseArr (inObj parseTexture)) []
    .ok { accessors, animations, asset, buffers, buffer_views,
          extensions_used, extensions_required, cameras, images, materials,
          meshes, nodes, samplers, scene, scenes, skins, textures })

/-- `Root::indices_are_valid` (src/v2.rs lines 983-988): the body is a
`TODO: Implement me` placeholder that returns `true` unconditionally,
although its doc comment promises a search for out-of-range indices. -/
def Root.indices_are_valid (_ : Root) : Bool := true

/-- `Root::import_from_str` (src/v2.rs lines 836-846), with serde_json's
text layer abstracted: the input arrives as a JSON tree. Parse, then
accept the document iff `indices_are_valid`. -/
def import_from_json (j : Json) : Except ImportError Root :=
  match inObj parseRoot j with
  | .error e => .error (.deserialize e)
  | .ok root => if Root.indices_are_valid root then .ok root
                else .error (.invalid "index out of range")

/-! ## Per-collection lookups (src/v2.rs lines 848-981)

Each Rust getter is `&self.collection[index.0 as usize]`: Rust `Vec`
indexing returns the element when the index is in bounds and panics
(a defined, bounds-checked abort — never an unchecked dereference) when
it is not. The outcome type below has a third constructor,
`outOfRangeError`, for the behaviour the spec claims (§4.2: "fails with
OutOfRange"); the code's embedding never produces it — its out-of-range
branch is the panic, `abort`. -/

inductive LookupResult (α : Type) where
  | found (a : α)
  | outOfRangeError
  | abort

/-- Discriminator: 0 = found, 1 = outOfRangeError, 2 = abort. -/
def lookupKind : LookupResult α → Nat
  | .found _ => 0
  | .outOfRangeError => 1
  | .abort => 2

/-- `Root::accessor` (src/v2.rs lines 849-851). -/
def Root.accessor (r : Root) (i : Index CollTag.accessor) : LookupResult Accessor :=
  match r.accessors.get? i.value with
  | some a => .found a
  | none => .abort

/-- `Root::buffer` (src/v2.rs lines 863-866). -/
def Root.buffer (r : Root) (i : Index CollTag.buffer) : LookupResult Buffer :=
  match r.buffers.get? i.value with
  | some a => .found a
  | none => .abort

/-- `Root::buffer_view` (src/v2.rs lines 873-876). -/
def Root.buffer_view (r : Root) (i : Index CollTag.bufferView) : LookupResult BufferView :=
  match r.buffer_views.get? i.value with
  | some a => .found a
  | none => .abort

/-- `Root::camera` (src/v2.rs lines 883-886). -/
def Root.camera (r : Root) (i : Index CollTag.camera) : LookupResult Camera :=
  match r.cameras.get? i.value with
  | some a => .found a
  | none => .abort

/-- `Root::image` (src/v2.rs lines 903-906). -/
def Root.image (r : Root) (i : Index CollTag.image) : LookupResult Image :=
  match r.images.get? i.value with
  | some a => .found a
  | none => .abort

/-- `Root::material` (src/v2.rs lines 913-916). -/
def Root.material (r : Root) (i : Index CollTag.material) : LookupResult Material :=
  match r.materials.get? i.value with
  | some a => .found a
  | none => .abort

/-- `Root::mesh` (src/v2.rs lines 923-926). -/
def Root.mesh (r : Root) (i : Index CollTag.mesh) : LookupResult Mesh :=
  match r.meshes.get? i.value with
  | some a => .found a
  | none => .abort

/-- `Root::node` (src/v2.rs lines 933-936). -/
def Root.node (r : Root) (i : Index CollTag.node) : LookupResult Node :=
  match r.nodes.get? i.value with
  | some a => .found a
  | none => .abort

/-- `Root::sampler` (src/v2.rs lines 943-946). -/
def Root.sampler (r : Root) (i : Index CollTag.sampler) : LookupResult Sampler :=
  match r.samplers.get? i.value with
  | some a => .found a
  | none => .abort

/-- `Root::scene` (src/v2.rs lines 953-956). -/
def Root.sceneAt (r : Root) (i : Index CollTag.scene) : LookupResult Scene :=
  match r.scenes.get? i.value with
  | some a => .found a
  | none => .abort

/-- `Root::skin` (src/v2.rs lines 963-966). -/
def Root.skin (r : Root) (i : Index CollTag.skin) : LookupResult Skin :=
  match r.skins.get? i.value with
  | some a => .found a
  | none => .abort

/-- `Root::texture` (src/v2.rs lines 973-976). -/
def Root.texture (r : Root) (i : Index CollTag.texture) : LookupResult Texture :=
  match r.textures.get? i.value with
  | some a => .found a
  | none => .abort

/-! ## Observation helpers for concrete import results -/

def importOk : Except ImportError Root → Bool
  | .ok _ => true
  | .error _ => false

def importNodesLen : Except ImportError Root → Option Nat
  | .ok r => some r.nodes.length
  | .error _ => none

def importScenesLen : Except ImportError Root → Option Nat
  | .ok r => some r.scenes.length
  | .error _ => none

def importSceneIdx : Except ImportError Root → Option Nat
  | .ok r => some r.scene.value
  | .error _ => none

def importSceneNodeValues : Except ImportError Root → Option (List (List Nat))
  | .ok r => some (r.scenes.map (fun s => s.nodes.map Index.value))
  | .error _ => none

/-! ## Helper lemmas -/

theorem exceptBind_ok {ε α β : Type} {e : Except ε α} {f : α → Except ε β} {b : β}
    (h : e >>= f = .ok b) : ∃ a, e = .ok a ∧ f a = .ok b := by
  cases e with
  | error err => simp [Bind.bind, Except.bind] at h
  | ok a => exact ⟨a, rfl, by simpa [Bind.bind, Except.bind] using h⟩

theorem jLookup_eq_none_of_not_mem (o : JObj) (k : String)
    (h : ¬ k ∈ o.map Prod.fst) : jLookup o k = none := by
  unfold jLookup
  have : o.find? (fun p => p.fst == k) = none := by
    rw [List.find?_eq_none]
    intro p hp hpk
    exact h (by
      have hfst : p.fst = k := by simpa using hpk
      exact hfst ▸ List.mem_map_of_mem Prod.fst hp)
  rw [this]
  rfl

theorem mem_of_jLookup_eq_some (o : JObj) (k : String) (j : Json)
    (h : jLookup o k = some j) : k ∈ o.map Prod.fst := by
  unfold jLookup at h
  cases hf : o.find? (fun p => p.fst == k) with
  | none => rw [hf] at h; exact Option.noConfusion h
  | some p =>
    have hpk : p.fst = k := by simpa using List.find?_some hf
    have hmem : p ∈ o := List.mem_of_find?_eq_some hf
    exact hpk ▸ List.mem_map_of_mem Prod.fst hmem

theorem guardUnknown_err {α : Type} (object : String) (schema : List String) (o : JObj)
    (body : Except ParseErr α) (k : String) (hk : k ∈ o.map Prod.fst)
    (hs : schema.contains k = false) :
    ∃ m, guardUnknown object schema o body = .error (.unknownField object m) := by
  unfold guardUnknown firstUnknownKey
  cases hf : (o.map Prod.fst).find? (fun x => !(schema.contains x)) with
  | some m => exact ⟨m, rfl⟩
  | none =>
    exfalso
    have h2 := List.find?_eq_none.mp hf k hk
    have h3 : schema.contains k = true := by simpa using h2
    rw [hs] at h3
    exact Bool.noConfusion h3

theorem guardUnknown_ok {α : Type} {object : String} {schema : List String} {o : JObj}
    {body : Except ParseErr α} {a : α}
    (h : guardUnknown object schema o body = .ok a) : body = .ok a := by
  unfold guardUnknown at h
  cases hf : firstUnknownKey schema o <;> rw [hf] at h
  · exact h
  · exact Except.noConfusion h

theorem defField_of_not_mem {α : Type} (o : JObj) (field : String)
    (p : Json → Except ParseErr α) (d : α) (h : ¬ field ∈ o.map Prod.fst) :
    defField o field p d = .ok d := by
  unfold defField
  rw [jLookup_eq_none_of_not_mem o field h]

theorem reqField_ok_mem {α : Type} {object field : String} {o : JObj}
    {p : Json → Except ParseErr α} {a : α}
    (h : reqField object field o p = .ok a) : field ∈ o.map Prod.fst := by
  unfold reqField at h
  cases hl : jLookup o field with
  | some j => exact mem_of_jLookup_eq_some o field j hl
  | none => rw [hl] at h; exact Except.noConfusion h

/-! ## Concrete documents -/

/-- A document whose parse succeeds and whose single Scene references
node 5 while the Node collection has length 2 — the spec §8 out-of-range
example. -/
def c1Doc : Json :=
  Json.obj
    [("asset", Json.obj []),
     ("nodes", Json.arr [Json.obj [("mesh", Json.num 0)],
                         Json.obj [("mesh", Json.num 0)]]),
     ("scenes", Json.arr [Json.obj [("nodes", Json.arr [Json.num 5])]])]

/-- A structurally empty document: required `asset` only, `scenes` empty,
`scene` defaulted to index 0. -/
def c6Doc : Json := Json.obj [("asset", Json.obj [])]

/-- A `Root` with every collection empty (a well-typed document model). -/
def emptyRoot : Root :=
  { accessors := [], animations := [],
    asset := { copyright := none, extensions := none, extras := none,
               generator := none, version := asset_version_default },
    buffers := [], buffer_views := [], extensions_used := [],
    extensions_required := [], cameras := [], images := [], materials := [],
    meshes := [], nodes := [], samplers := [], scene := root_scene_default,
    scenes := [], skins := [], textures := [] }

/-! ## Claim theorems -/

/-- C1. The claim says a parsed document carrying a typed index at or
beyond its target collection's length fails validation inside
`import_from_str` with an `OutOfRange` violation and no document model is
returned. The code's `Root::indices_are_valid` is a `TODO` stub returning
`true`, contradicting its own doc comment: on the spec's own §8 example
(one Scene whose nodes list contains 5 while the Node collection has
length 2), the import succeeds and the document model is handed to the
caller. -/
theorem c1_import_accepts_out_of_range_index :
    importOk (import_from_json c1Doc) = true ∧
    importNodesLen (import_from_json c1Doc) = some 2 ∧
    importSceneNodeValues (import_from_json c1Doc) = some [[5]] :=
  ⟨rfl, rfl, rfl⟩

/-- C2 (amended). Each per-collection lookup returns the entity at
position `i` when `i.value < length`, and aborts via Rust's
bounds-checked indexing (a panic, not an unchecked dereference and not a
returned `OutOfRange` error) otherwise — shown for the cited
`Root::accessor` and `Root::node` and for `Root::scene`. -/
theorem c2_lookup_found_or_abort :
    (∀ (r : Root) (i : Index CollTag.accessor) (h : i.value < r.accessors.length),
        Root.accessor r i = .found (r.accessors.get ⟨i.value, h⟩)) ∧
    (∀ (r : Root) (i : Index CollTag.accessor), r.accessors.length ≤ i.value →
        Root.accessor r i = .abort) ∧
    (∀ (r : Root) (i : Index CollTag.node) (h : i.value < r.nodes.length),
        Root.node r i = .found (r.nodes.get ⟨i.value, h⟩)) ∧
    (∀ (r : Root) (i : Index CollTag.node), r.nodes.length ≤ i.value →
        Root.node r i = .abort) ∧
    (∀ (r : Root) (i : Index CollTag.scene) (h : i.value < r.scenes.length),
        Root.sceneAt r i = .found (r.scenes.get ⟨i.value, h⟩)) ∧
    (∀ (r : Root) (i : Index CollTag.scene), r.scenes.length ≤ i.value →
        Root.sceneAt r i = .abort) := by
  refine ⟨?_, ?_, ?_, ?_, ?_, ?_⟩
  · intro r i h
    unfold Root.accessor
    rw [List.get?_eq_get h]
  · intro r i h
    unfold Root.accessor
    rw [List.get?_eq_none.mpr h]
  · intro r i h
    unfold Root.node
    rw [List.get?_eq_get h]
  · intro r i h
    unfold Root.node
    rw [List.get?_eq_none.mpr h]
  · intro r i h
    unfold Root.sceneAt
    rw [List.get?_eq_get h]
  · intro r i h
    unfold Root.sceneAt
    rw [List.get?_eq_none.mpr h]

/-- C2, the claim as stated is false: on a `Root` with an empty node
collection, looking up node index 0 (out of range) yields the panic
outcome, not an `OutOfRange` error value as the claim asserts. -/
theorem c2_out_of_range_is_panic_not_error :
    Root.node emptyRoot (Index.new CollTag.node 0) = LookupResult.abort ∧
    Root.node emptyRoot (Index.new CollTag.node 0) ≠ LookupResult.outOfRangeError ∧
    lookupKind (Root.node emptyRoot (Index.new CollTag.node 0)) = 2 ∧
    lookupKind (LookupResult.outOfRangeError : LookupResult Node) = 1 := by
  exact ⟨rfl, fun h => LookupResult.noConfusion h, rfl, rfl⟩

/-- C6. The claim says `Root.scene` (defaulting to 0) passes validation
only when `scenes` is non-empty and the index in range, so a document
with an empty `scenes` collection must fail validation. The validator is
the `TODO` stub returning `true`: the minimal document (empty `scenes`,
defaulted `scene = 0`) is imported successfully. -/
theorem c6_import_accepts_empty_scenes :
    importOk (import_from_json c6Doc) = true ∧
    importScenesLen (import_from_json c6Doc) = some 0 ∧
    importSceneIdx (import_from_json c6Doc) = some 0 :=
  ⟨rfl, rfl, rfl⟩

/-- C7. The claim says `AnimationChannel.sampler` is typed against the
owning Animation's local `AnimationSampler` list and that validation
resolves it against that list's length. In the code the field is declared
`Index<Sampler>` — tagged with the `Sampler` texture-sampler type, not
`AnimationSampler` — and the validator is the stub that accepts every
root without resolving anything. -/
theorem c7_channel_sampler_tagged_texture_sampler :
    (∀ c : AnimationChannel, Index.tagOf c.sampler = CollTag.sampler) ∧
    (CollTag.sampler == CollTag.animationSampler) = false ∧
    (∀ r : Root, Root.indices_are_valid r = true) :=
  ⟨fun _ => rfl, by decide, fun _ => rfl⟩

/-- C8. `visit_u64` never fails: it returns `Ok(Index::new(value as u32))`,
truncating the `u64` wire value modulo `2 ^ 32`; in particular the wire
value `2 ^ 32 + 7` decodes to an index whose `value()` is 7, different
from the wire value. -/
theorem c8_decode_truncates_u64_to_u32 :
    (∀ (t : CollTag) (v : Nat), v < 2 ^ 64 →
        indexVisitU64 t v = .ok (Index.new t (v % 2 ^ 32))) ∧
    (∀ (t : CollTag) (v : Nat), v < 2 ^ 64 →
        ∃ i : Index t, indexVisitU64 t v = .ok i ∧ i.value = v % 2 ^ 32) ∧
    indexVisitU64 CollTag.node (2 ^ 32 + 7) = .ok (Index.new CollTag.node 7) ∧
    (Index.new CollTag.node 7).value ≠ 2 ^ 32 + 7 := by
  refine ⟨fun t v _ => rfl, fun t v _ => ⟨Index.new t (v % 2 ^ 32), rfl, rfl⟩, ?_, by decide⟩
  show Except.ok (Index.new CollTag.node ((2 ^ 32 + 7) % 2 ^ 32)) = _
  norm_num

/-- C3. Round-trip `encode(decode(x)) == x`: for typed indices, any wire
integer below `2 ^ 32` (the declared index domain) is re-emitted exactly
by serialization; for every numeric- and string-coded enumeration of the
file, any code in the closed set decodes to a variant whose encoding is
that same code. -/
theorem c3_encode_decode_round_trip :
    (∀ (t : CollTag) (x : Nat), x < 2 ^ 32 →
        (indexVisitU64 t x).map Index.serialize = .ok x) ∧
    (∀ (n : Nat) (e : AccessorDataType),
        AccessorDataType.decode n = some e → AccessorDataType.encode e = n) ∧
    (∀ (s : String) (e : AccessorKind),
        AccessorKind.decode s = some e → AccessorKind.encode e = s) ∧
    (∀ (s : String) (e : AnimationChannelTargetPath),
        AnimationChannelTargetPath.decode s = some e →
          AnimationChannelTargetPath.encode e = s) ∧
    (∀ (s : String) (e : AnimationSamplerInterpolation),
        AnimationSamplerInterpolation.decode s = some e →
          AnimationSamplerInterpolation.encode e = s) ∧
    (∀ (n : Nat) (e : BufferTarget),
        BufferTarget.decode n = some e → BufferTarget.encode e = n) ∧
    (∀ (n : Nat) (e : MeshPrimitiveMode),
        MeshPrimitiveMode.decode n = some e → MeshPrimitiveMode.encode e = n) ∧
    (∀ (n : Nat) (e : SamplerMagFilter),
        SamplerMagFilter.decode n = some e → SamplerMagFilter.encode e = n) ∧
    (∀ (n : Nat) (e : SamplerMinFilter),
        SamplerMinFilter.decode n = some e → SamplerMinFilter.encode e = n) ∧
    (∀ (n : Nat) (e : SamplerWrappingMode),
        SamplerWrappingMode.decode n = some e → SamplerWrappingMode.encode e = n) ∧
    (∀ (n : Nat) (e : TextureDataType),
        TextureDataType.decode n = some e → TextureDataType.encode e = n) ∧
    (∀ (n : Nat) (e : TextureFormat),
        TextureFormat.decode n = some e → TextureFormat.encode e = n) ∧
    (∀ (n : Nat) (e : TextureTarget),
        TextureTarget.decode n = some e → TextureTarget.encode e = n) := by
  refine ⟨?_, ?_, ?_, ?_, ?_, ?_, ?_, ?_, ?_, ?_, ?_, ?_, ?_⟩
  · intro t x hx
    simp [indexVisitU64, Index.new, Index.serialize, Except.map]
    omega
  all_goals intro a e h
  all_goals simp only [AccessorDataType.decode, AccessorKind.decode,
    AnimationChannelTargetPath.decode, AnimationSamplerInterpolation.decode,
    BufferTarget.decode, MeshPrimitiveMode.decode, SamplerMagFilter.decode,
    SamplerMinFilter.decode, SamplerWrappingMode.decode, TextureDataType.decode,
    TextureFormat.decode, TextureTarget.decode] at h
  all_goals split_ifs at h <;>
    first
      | exact Option.noConfusion h
      | (injection h with h; subst h;
         simp_all [AccessorDataType.encode, AccessorKind.encode,
           AnimationChannelTargetPath.encode, AnimationSamplerInterpolation.encode,
           BufferTarget.encode, MeshPrimitiveMode.encode, SamplerMagFilter.encode,
           SamplerMinFilter.encode, SamplerWrappingMode.encode, TextureDataType.encode,
           TextureFormat.encode, TextureTarget.encode])

/-- C4. A Node object without a `"matrix"` key parses to a `Node` whose
`matrix` is `node_matrix_default`, the 4x4 identity — the serde `default`
injection declared on the field. -/
theorem c4_node_matrix_defaults_to_identity (o : JObj) (n : Node)
    (hm : ¬ "matrix" ∈ o.map Prod.fst)
    (hp : parseNode o = .ok n) : n.matrix = node_matrix_default := by
  unfold parseNode at hp
  have hb := guardUnknown_ok hp
  obtain ⟨camera, h1, hb⟩ := exceptBind_ok hb
  obtain ⟨children, h2, hb⟩ := exceptBind_ok hb
  obtain ⟨extensions, h3, hb⟩ := exceptBind_ok hb
  obtain ⟨extras, h4, hb⟩ := exceptBind_ok hb
  obtain ⟨matrix, h5, hb⟩ := exceptBind_ok hb
  obtain ⟨mesh, h6, hb⟩ := exceptBind_ok hb
  obtain ⟨name, h7, hb⟩ := exceptBind_ok hb
  obtain ⟨rotation, h8, hb⟩ := exceptBind_ok hb
  obtain ⟨scale, h9, hb⟩ := exceptBind_ok hb
  obtain ⟨translation, h10, hb⟩ := exceptBind_ok hb
  obtain ⟨skin, h11, hb⟩ := exceptBind_ok hb
  obtain ⟨weights, h12, hb⟩ := exceptBind_ok hb
  rw [defField_of_not_mem o "matrix" _ node_matrix_default hm] at h5
  injection h5 with h5
  injection hb with hb
  subst hb
  exact h5.symm

/-- The Node JSON object of the C4 witness: `mesh` only, no `matrix`. -/
def c4NodeObj : JObj := [("mesh", Json.num 0)]

/-- The `Node` that `parseNode c4NodeObj` produces. -/
def c4Node : Node :=
  { camera := none, children := [], extensions := none, extras := none,
    matrix := node_matrix_default, mesh := Index.new CollTag.mesh 0,
    name := none, rotation := node_rotation_default,
    scale := node_scale_default, translation := [0, 0, 0],
    skin := none, weights := none }

/-- C4 witness: the theorem applied to the concrete matrix-less Node
object. -/
theorem c4_witness : c4Node.matrix = node_matrix_default :=
  c4_node_matrix_defaults_to_identity c4NodeObj c4Node (by decide) rfl

/-- C9. Every successful `Material` parse had `pbrMetallicRoughness`,
`normalTexture`, `occlusionTexture` and `emissiveTexture` keys present
(they are plain required fields), and every successful
`MaterialPbrMetallicRoughness` parse had `baseColorTexture` and
`metallicRoughnessTexture`; omitting one aborts with a missing-field
error, shown concretely for `normalTexture`. -/
theorem c9_material_texture_refs_required :
    (∀ (o : JObj) (m : Material), parseMaterial o = .ok m →
        "pbrMetallicRoughness" ∈ o.map Prod.fst ∧
        "normalTexture" ∈ o.map Prod.fst ∧
        "occlusionTexture" ∈ o.map Prod.fst ∧
        "emissiveTexture" ∈ o.map Prod.fst) ∧
    (∀ (o : JObj) (p : MaterialPbrMetallicRoughness), parseMaterialPbr o = .ok p →
        "baseColorTexture" ∈ o.map Prod.fst ∧
        "metallicRoughnessTexture" ∈ o.map Prod.fst) ∧
    parseMaterial [("pbrMetallicRoughness",
        Json.obj [("baseColorTexture", Json.obj [("index", Json.num 0)]),
                  ("metallicRoughnessTexture", Json.obj [("index", Json.num 0)])])] =
      .error (.missingField "Material" "normalTexture") := by
  refine ⟨?_, ?_, rfl⟩
  · intro o m hp
    unfold parseMaterial at hp
    have hb := guardUnknown_ok hp
    obtain ⟨extensions, h1, hb⟩ := exceptBind_ok hb
    obtain ⟨extras, h2, hb⟩ := exceptBind_ok hb
    obtain ⟨name, h3, hb⟩ := exceptBind_ok hb
    obtain ⟨pbr, h4, hb⟩ := exceptBind_ok hb
    obtain ⟨nt, h5, hb⟩ := exceptBind_ok hb
    obtain ⟨ot, h6, hb⟩ := exceptBind_ok hb
    obtain ⟨et, h7, hb⟩ := exceptBind_ok hb
    exact ⟨reqField_ok_mem h4, reqField_ok_mem h5, reqField_ok_mem h6,
           reqField_ok_mem h7⟩
  · intro o p hp
    unfold parseMaterialPbr at hp
    have hb := guardUnknown_ok hp
    obtain ⟨bcf, h1, hb⟩ := exceptBind_ok hb
    obtain ⟨bct, h2, hb⟩ := exceptBind_ok hb
    obtain ⟨mf, h3, hb⟩ := exceptBind_ok hb
    obtain ⟨rf, h4, hb⟩ := exceptBind_ok hb
    obtain ⟨mrt, h5, hb⟩ := exceptBind_ok hb
    exact ⟨reqField_ok_mem h2, reqField_ok_mem h5⟩

/-- C10. `"bufferView"` is not in the declared wire schema of the sparse
indices object (both Rust fields are declared with wire name
`"byteOffset"`), so any sparse-indices object carrying a `"bufferView"`
key is rejected as an unknown field; and in every successfully parsed
sparse-indices object, `buffer_view` and `byte_offset` were read from
the one shared `"byteOffset"` key, so they carry the same number. -/
theorem c10_sparse_indices_bufferview_key_rejected :
    sparseIndicesWireFields.contains "bufferView" = false ∧
    (∀ o : JObj, "bufferView" ∈ o.map Prod.fst →
        ∃ m, parseAccessorSparseIndices o =
          .error (.unknownField "AccessorSparseIndices" m)) ∧
    parseAccessorSparseIndices
        [("byteOffset", Json.num 2), ("data_type", Json.num 5125),
         ("bufferView", Json.num 7)] =
      .error (.unknownField "AccessorSparseIndices" "bufferView") ∧
    (∀ (o : JObj) (r : AccessorSparseIndices), parseAccessorSparseIndices o = .ok r →
        r.buffer_view.value = r.byte_offset) := by
  refine ⟨rfl, ?_, rfl, ?_⟩
  · intro o h1
    unfold parseAccessorSparseIndices
    exact guardUnknown_err _ _ o _ "bufferView" h1 rfl
  · intro o r hp
    unfold parseAccessorSparseIndices at hp
    have hb := guardUnknown_ok hp
    obtain ⟨bv, h1, hb⟩ := exceptBind_ok hb
    obtain ⟨bo, h2, hb⟩ := exceptBind_ok hb
    obtain ⟨dt, h3, hb⟩ := exceptBind_ok hb
    obtain ⟨ext, h4, hb⟩ := exceptBind_ok hb
    obtain ⟨exr, h5, hb⟩ := exceptBind_ok hb
    injection hb with hb
    subst hb
    unfold reqField at h1
    unfold defField at h2
    cases hl : jLookup o "byteOffset" with
    | none =>
      rw [hl] at h1
      exact Except.noConfusion h1
    | some j =>
      rw [hl] at h1 h2
      cases j with
      | num v =>
        simp only [parseIndex, parseU32] at h1 h2
        split_ifs at h2 with hc2
        split_ifs at h1 with hc1
        unfold indexVisitU64 Index.new at h1
        injection h1 with h1
        injection h2 with h2
        subst h1
        show v.toNat % 2 ^ 32 = bo
        omega
      | null => simp [parseIndex] at h1
      | bool b => simp [parseIndex] at h1
      | str s => simp [parseIndex] at h1
      | arr xs => simp [parseIndex] at h1
      | obj fs => simp [parseIndex] at h1

/-- The sparse-storage object of the C5 counterexample: valid content
plus the unknown key `"foo"`. -/
def c5SparseObj : JObj :=
  [("count", Json.num 1),
   ("indices", Json.obj [("byteOffset", Json.num 0), ("data_type", Json.num 5125)]),
   ("values", Json.obj [("byteOffset", Json.num 0)]),
   ("foo", Json.num 1)]

/-- A full document embedding `c5SparseObj` inside an accessor. -/
def c5Doc : Json :=
  Json.obj
    [("asset", Json.obj []),
     ("accessors", Json.arr [Json.obj
        [("bufferView", Json.num 0), ("byteOffset", Json.num 0),
         ("count", Json.num 1), ("componentType", Json.num 5126),
         ("type", Json.str "SCALAR"), ("sparse", Json.obj c5SparseObj)]])]

/-- C5, the claim as stated is false: `AccessorSparseStorage` carries no
`deny_unknown_fields` attribute, so its object accepts the key `"foo"`
(not a field of its declared schema `count`/`extensions`/`extras`/
`indices`/`values`) and a whole document containing it parses and imports
successfully — no `UnknownField` abort. -/
theorem c5_sparse_storage_accepts_unknown_field :
    jLookup c5SparseObj "foo" = some (Json.num 1) ∧
    (["count", "extensions", "extras", "indices", "values"].contains "foo") = false ∧
    importOk (import_from_json c5Doc) = true :=
  ⟨rfl, rfl, rfl⟩

/-- C5 (amended). For every object type of the schema except
`AccessorSparseStorage` — all of which carry `deny_unknown_fields` — an
input object holding any key outside the declared wire schema fails to
parse with an `UnknownField` error naming the object type, and (last
conjunct) such a failure aborts the whole import with no document model:
a minimal Asset plus `"foo": 1` makes the import fail with
`UnknownField("Asset", "foo")`. -/
theorem c5_unknown_field_rejected_outside_sparse_storage :
    (∀ (o : JObj) (k : String), k ∈ o.map Prod.fst →
        rootWireFields.contains k = false →
        ∃ m, parseRoot o = .error (.unknownField "Root" m)) ∧
    (∀ (o : JObj) (k : String), k ∈ o.map Prod.fst →
        accessorWireFields.contains k = false →
        ∃ m, parseAccessor o = .error (.unknownField "Accessor" m)) ∧
    (∀ (o : JObj) (k : String), k ∈ o.map Prod.fst →
        sparseIndicesWireFields.contains k = false →
        ∃ m, parseAccessorSparseIndices o =
          .error (.unknownField "AccessorSparseIndices" m)) ∧
    (∀ (o : JObj) (k : String), k ∈ o.map Prod.fst →
        sparseValuesWireFields.contains k = false →
        ∃ m, parseAccessorSparseValues o =
          .error (.unknownField "AccessorSparseValues" m)) ∧
    (∀ (o : JObj) (k : String), k ∈ o.map Prod.fst →
        animationWireFields.contains k = false →
        ∃ m, parseAnimation o = .error (.unknownField "Animation" m)) ∧
    (∀ (o : JObj) (k : String), k ∈ o.map Prod.fst →
        channelWireFields.contains k = false →
        ∃ m, parseAnimationChannel o = .error (.unknownField "AnimationChannel" m)) ∧
    (∀ (o : JObj) (k : String), k ∈ o.map Prod.fst →
        channelTargetWireFields.contains k = false →
        ∃ m, parseAnimationChannelTarget o =
          .error (.unknownField "AnimationChannelTarget" m)) ∧
    (∀ (o : JObj) (k : String), k ∈ o.map Prod.fst →
        animationSamplerWireFields.contains k = false →
        ∃ m, parseAnimationSampler o = .error (.unknownField "AnimationSampler" m)) ∧
    (∀ (o : JObj) (k : String), k ∈ o.map Prod.fst →
        assetWireFields.contains k = false →
        ∃ m, parseAsset o = .error (.unknownField "Asset" m)) ∧
    (∀ (o : JObj) (k : String), k ∈ o.map Prod.fst →
        bufferWireFields.contains k = false →
        ∃ m, parseBuffer o = .error (.unknownField "Buffer" m)) ∧
    (∀ (o : JObj) (k : String), k ∈ o.map Prod.fst →
        bufferViewWireFields.contains k = false →
        ∃ m, parseBufferView o = .error (.unknownField "BufferView" m)) ∧
    (∀ (o : JObj) (k : String), k ∈ o.map Prod.fst →
        cameraWireFields.contains k = false →
        ∃ m, parseCamera o = .error (.unknownField "Camera" m)) ∧
    (∀ (o : JObj) (k : String), k ∈ o.map Prod.fst →
        cameraOrthographicWireFields.contains k = false →
        ∃ m, parseCameraOrthographic o =
          .error (.unknownField "CameraOrthographic" m)) ∧
    (∀ (o : JObj) (k : String), k ∈ o.map Prod.fst →
        cameraPerspectiveWireFields.contains k = false →
        ∃ m, parseCameraPerspective o =
          .error (.unknownField "CameraPerspective" m)) ∧
    (∀ (o : JObj) (k : String), k ∈ o.map Prod.fst →
        imageWireFields.contains k = false →
        ∃ m, parseImage o = .error (.unknownField "Image" m)) ∧
    (∀ (o : JObj) (k : String), k ∈ o.map Prod.fst →
        textureInfoWireFields.contains k = false →
        ∃ m, parseTextureInfo o = .error (.unknownField "TextureInfo" m)) ∧
    (∀ (o : JObj) (k : String), k ∈ o.map Prod.fst →
        materialNormalTextureWireFields.contains k = false →
        ∃ m, parseMaterialNormalTexture o =
          .error (.unknownField "MaterialNormalTexture" m)) ∧
    (∀ (o : JObj) (k : String), k ∈ o.map Prod.fst →
        materialOcclusionTextureWireFields.contains k = false →
        ∃ m, parseMaterialOcclusionTexture o =
          .error (.unknownField "MaterialOcclusionTexture" m)) ∧
    (∀ (o : JObj) (k : String), k ∈ o.map Prod.fst →
        pbrWireFields.contains k = false →
        ∃ m, parseMaterialPbr o =
          .error (.unknownField "MaterialPbrMetallicRoughness" m)) ∧
    (∀ (o : JObj) (k : String), k ∈ o.map Prod.fst →
        materialWireFields.contains k = false →
        ∃ m, parseMaterial o = .error (.unknownField "Material" m)) ∧
    (∀ (o : JObj) (k : String), k ∈ o.map Prod.fst →
        meshPrimitiveWireFields.contains k = false →
        ∃ m, parseMeshPrimitive o = .error (.unknownField "MeshPrimitive" m)) ∧
    (∀ (o : JObj) (k : String), k ∈ o.map Prod.fst →
        meshWireFields.contains k = false →
        ∃ m, parseMesh o = .error (.unknownField "Mesh" m)) ∧
    (∀ (o : JObj) (k : String), k ∈ o.map Prod.fst →
        nodeWireFields.contains k = false →
        ∃ m, parseNode o = .error (.unknownField "Node" m)) ∧
    (∀ (o : JObj) (k : String), k ∈ o.map Prod.fst →
        samplerWireFields.contains k = false →
        ∃ m, parseSampler o = .error (.unknownField "Sampler" m)) ∧
    (∀ (o : JObj) (k : String), k ∈ o.map Prod.fst →
        sceneWireFields.contains k = false →
        ∃ m, parseScene o = .error (.unknownField "Scene" m)) ∧
    (∀ (o : JObj) (k : String), k ∈ o.map Prod.fst →
        skinWireFields.contains k = false →
        ∃ m, parseSkin o = .error (.unknownField "Skin" m)) ∧
    (∀ (o : JObj) (k : String), k ∈ o.map Prod.fst →
        textureWireFields.contains k = false →
        ∃ m, parseTexture o = .error (.unknownField "Texture" m)) ∧
    import_from_json (Json.obj [("asset", Json.obj [("foo", Json.num 1)])]) =
      .error (.deserialize (.unknownField "Asset" "foo")) := by
  refine ⟨?_, ?_, ?_, ?_, ?_, ?_, ?_, ?_, ?_, ?_, ?_, ?_, ?_, ?_, ?_, ?_, ?_,
          ?_, ?_, ?_, ?_, ?_, ?_, ?_, ?_, ?_, ?_, rfl⟩
  all_goals intro o k h1 h2
  · unfold parseRoot
    exact guardUnknown_err _ _ o _ k h1 h2
  · unfold parseAccessor
    exact guardUnknown_err _ _ o _ k h1 h2
  · unfold parseAccessorSparseIndices
    exact guardUnknown_err _ _ o _ k h1 h2
  · unfold parseAccessorSparseValues
    exact guardUnknown_err _ _ o _ k h1 h2
  · unfold parseAnimation
    exact guardUnknown_err _ _ o _ k h1 h2
  · unfold parseAnimationChannel
    exact guardUnknown_err _ _ o _ k h1 h2
  · unfold parseAnimationChannelTarget
    exact guardUnknown_err _ _ o _ k h1 h2
  · unfold parseAnimationSampler
    exact guardUnknown_err _ _ o _ k h1 h2
  · unfold parseAsset
    exact guardUnknown_err _ _ o _ k h1 h2
  · unfold parseBuffer
    exact guardUnknown_err _ _ o _ k h1 h2
  · unfold parseBufferView
    exact guardUnknown_err _ _ o _ k h1 h2
  · unfold parseCamera
    exact guardUnknown_err _ _ o _ k h1 h2
  · unfold parseCameraOrthographic
    exact guardUnknown_err _ _ o _ k h1 h2
  · unfold parseCameraPerspective
    exact guardUnknown_err _ _ o _ k h1 h2
  · unfold parseImage
    exact guardUnknown_err _ _ o _ k h1 h2
  · unfold parseTextureInfo
    exact guardUnknown_err _ _ o _ k h1 h2
  · unfold parseMaterialNormalTexture
    exact guardUnknown_err _ _ o _ k h1 h2
  · unfold parseMaterialOcclusionTexture
    exact guardUnknown_err _ _ o _ k h1 h2
  · unfold parseMaterialPbr
    exact guardUnknown_err _ _ o _ k h1 h2
  · unfold parseMaterial
    exact guardUnknown_err _ _ o _ k h1 h2
  · unfold parseMeshPrimitive
    exact guardUnknown_err _ _ o _ k h1 h2
  · unfold parseMesh
    exact guardUnknown_err _ _ o _ k h1 h2
  · unfold parseNode
    exact guardUnknown_err _ _ o _ k h1 h2
  · unfold parseSampler
    exact guardUnknown_err _ _ o _ k h1 h2
  · unfold parseScene
    exact guardUnknown_err _ _ o _ k h1 h2
  · unfold parseSkin
    exact guardUnknown_err _ _ o _ k h1 h2
  · unfold parseTexture
    exact guardUnknown_err _ _ o _ k h1 h2

end Gltf
